import Mathlib

/-!
Shallow embedding of `src/keyglove/support_motion_mpu6050_hand.h`
(Keyglove motion support for the hand-mounted MPU-6050 sensor).

The C module keeps process-wide state: an interrupt latch flag
`mpuHandInterrupt`, raw / filtered / shadow vectors of three signed 16-bit
integers each (`aaRaw`, `aa`, `aa0`, `gvRaw`, `gv`, `gv0`), and talks to
three collaborators: the MPU-6050 driver object (hardware effects), the
packet transport (`send_keyglove_packet`), and optional veto callbacks
(`kg_evt_motion_mode`, `kg_evt_motion_data`).

We model `int16_t` values as `ℤ` (all source arithmetic on them is done
after integral promotion, so no 16-bit wraparound occurs inside an
expression; the final stores are shown to stay within the 16-bit range
under the claims' range hypotheses), hardware calls as an explicit effect
trace, and packet transmission as a list of emitted packets.
-/

/-- Three signed 16-bit integers, mirroring I2Cdevlib's `VectorInt16`.
Components are modelled as unbounded `ℤ`; range facts are tracked by
`isInt16` where a claim needs them. -/
structure VectorInt16 where
  x : ℤ
  y : ℤ
  z : ℤ
deriving DecidableEq, Repr

/-- The `int16_t` range. -/
def isInt16 (v : ℤ) : Prop := -32768 ≤ v ∧ v ≤ 32767

instance (v : ℤ) : Decidable (isInt16 v) := by
  unfold isInt16; infer_instance

/-- All three components of a vector are in the `int16_t` range. -/
def vecIsInt16 (v : VectorInt16) : Prop := isInt16 v.x ∧ isInt16 v.y ∧ isInt16 v.z

instance (v : VectorInt16) : Decidable (vecIsInt16 v) := by
  unfold vecIsInt16; infer_instance

/-- Truncation of a rational toward zero, the C++ `double → int16_t`
conversion applied by the stores in `update_motion_mpu6050_hand` (the
converted values are in range, so the conversion is defined and truncates
toward zero).  `Rat` is stored in lowest terms with positive denominator,
so truncating the exact quotient of numerator by denominator is exactly
truncation toward zero of the rational value. -/
def trunc (q : ℚ) : ℤ := q.num.tdiv q.den

/-- One per-axis step of the smoothing filter, embedded from
`aa.x = aa0.x + (0.25 * (aaRaw.x - aa0.x));` (lines 137-142).  The int
subtraction `raw - prev` cannot overflow after promotion; every
intermediate `double` value is exactly representable (magnitudes are far
below 2^53), so the `double` computation is exact rational arithmetic
followed by the truncating store. -/
def filterStep (prev raw : ℤ) : ℤ :=
  trunc ((prev : ℚ) + 0.25 * ((raw : ℚ) - (prev : ℚ)))

/-- `trunc` is floor on nonnegative rationals and ceiling on negative
ones (truncation toward zero). -/
theorem trunc_eq_floor_or_ceil (q : ℚ) :
    trunc q = if 0 ≤ q then ⌊q⌋ else ⌈q⌉ := by
  unfold trunc
  by_cases h : 0 ≤ q
  · rw [if_pos h, Rat.floor_def]
    exact Int.tdiv_eq_ediv (Rat.num_nonneg.mpr h) (by positivity)
  · rw [if_neg h]
    have hnum : q.num ≤ 0 := by
      by_contra hc
      exact h (le_of_lt (Rat.num_pos.mp (by omega)))
    have h1 : q.num.tdiv q.den = -((-q.num).tdiv q.den) := by
      rw [Int.neg_tdiv]; ring
    have h2 : (-q.num).tdiv q.den = (-q.num) / (q.den : ℤ) :=
      Int.tdiv_eq_ediv (by omega) (by positivity)
    have h3 : ⌈q⌉ = -⌊-q⌋ := by
      rw [Int.floor_neg]; ring
    have h4 : ⌊-q⌋ = (-q.num) / (q.den : ℤ) := by
      rw [Rat.floor_def, Rat.num_neg_eq_neg_num, Rat.den_neg_eq_den]
    rw [h1, h2, h3, h4]

/-- The filter never overshoots: one step from `prev` toward `raw` lands
between them (inclusive). -/
theorem filterStep_between (p r : ℤ) :
    min p r ≤ filterStep p r ∧ filterStep p r ≤ max p r := by
  have hv : (((min p r : ℤ) : ℚ)) ≤ (p : ℚ) + 0.25 * ((r : ℚ) - (p : ℚ)) ∧
      (p : ℚ) + 0.25 * ((r : ℚ) - (p : ℚ)) ≤ (((max p r : ℤ) : ℚ)) := by
    rcases le_total p r with hle | hle
    · rw [min_eq_left hle, max_eq_right hle]
      have : (p : ℚ) ≤ (r : ℚ) := by exact_mod_cast hle
      constructor <;> nlinarith
    · rw [min_eq_right hle, max_eq_left hle]
      have : (r : ℚ) ≤ (p : ℚ) := by exact_mod_cast hle
      constructor <;> nlinarith
  unfold filterStep
  set v : ℚ := (p : ℚ) + 0.25 * ((r : ℚ) - (p : ℚ)) with hvdef
  rw [trunc_eq_floor_or_ceil]
  by_cases hpos : 0 ≤ v
  · rw [if_pos hpos]
    constructor
    · exact Int.le_floor.mpr hv.1
    · have : (⌊v⌋ : ℚ) ≤ (((max p r : ℤ) : ℚ)) := le_trans (Int.floor_le v) hv.2
      exact_mod_cast this
  · rw [if_neg hpos]
    constructor
    · have : (((min p r : ℤ) : ℚ)) ≤ (⌈v⌉ : ℚ) := le_trans hv.1 (Int.le_ceil v)
      exact_mod_cast this
    · exact Int.ceil_le.mpr hv.2

/-- A filter step from inputs in the `int16_t` range stays in range, so
the truncating store back into the `int16_t` field never wraps. -/
theorem filterStep_isInt16 (p r : ℤ) (hp : isInt16 p) (hr : isInt16 r) :
    isInt16 (filterStep p r) := by
  have h := filterStep_between p r
  unfold isInt16 at *
  rcases h with ⟨h1, h2⟩
  constructor
  · calc (-32768 : ℤ) ≤ min p r := by omega
    _ ≤ filterStep p r := h1
  · calc filterStep p r ≤ max p r := h2
    _ ≤ 32767 := by omega

/-- The process-wide mutable state of the module: the interrupt latch flag
and the six `VectorInt16` globals (lines 46-53 of the header). -/
structure MotionState where
  mpuHandInterrupt : Bool
  aaRaw : VectorInt16
  aa : VectorInt16
  aa0 : VectorInt16
  gvRaw : VectorInt16
  gv : VectorInt16
  gv0 : VectorInt16
deriving DecidableEq, Repr

/-- Calls made on the hardware collaborators (MPU-6050 driver object,
Arduino pin / interrupt API), recorded as an effect trace.  Argument
values are kept where the source passes a varying or numeric argument. -/
inductive HwAction where
  | pinModeInput
  | digitalWriteHigh
  | deviceInit
  | delayMs (ms : ℕ)
  | setFullScaleGyroRange
  | setDLPFMode
  | setRate (r : ℕ)
  | setInterruptMode (m : ℕ)
  | setInterruptDrive (d : ℕ)
  | setInterruptLatch (l : ℕ)
  | setInterruptLatchClear (c : ℕ)
  | setIntDataReadyEnabled (e : ℕ)
  | attachInterrupt
  | detachInterrupt
  | setSleepEnabled (sleep : Bool)
deriving DecidableEq, Repr

/-- Which event packet is emitted.  The numeric packet type / class / id
constants are owned by the transport layer (outside this header); the two
distinct ids used here are represented symbolically. -/
inductive PacketId where
  | evtMotionMode
  | evtMotionData
deriving DecidableEq, Repr

/-- A packet handed to `send_keyglove_packet`: event id, payload length
argument, payload bytes. -/
structure Packet where
  pid : PacketId
  plen : ℕ
  payload : List ℕ
deriving DecidableEq, Repr

/-- The external collaborators the module reads: the `inBinPacket`
re-entrancy flag and the two optional veto callbacks (null function
pointers modelled as `none`).  Callbacks return a `uint8_t` skip value;
nonzero means "skip transmission". -/
structure Env where
  inBinPacket : Bool
  kg_evt_motion_mode : Option (ℕ → ℕ → ℕ)
  kg_evt_motion_data : Option (ℕ → ℕ → ℕ → List ℕ → ℕ)

/-- `motion_mpu6050_hand_interrupt` (lines 59-61): the ISR only sets the
latch flag. -/
def motion_mpu6050_hand_interrupt (st : MotionState) : MotionState :=
  { st with mpuHandInterrupt := true }

/-- `motion_set_mpu6050_hand_mode` (lines 67-86).  Returns the new state,
the hardware-effect trace, and the packets handed to
`send_keyglove_packet`.  `if (mode)` treats any nonzero `uint8_t` as
enabled. -/
def motion_set_mpu6050_hand_mode (env : Env) (st : MotionState) (mode : ℕ) :
    MotionState × List HwAction × List Packet :=
  let st1 := if mode ≠ 0 then
      { st with aa := ⟨0, 0, 0⟩, gv := ⟨0, 0, 0⟩, mpuHandInterrupt := true }
    else st
  let hw := if mode ≠ 0 then
      [HwAction.attachInterrupt, HwAction.setSleepEnabled false]
    else
      [HwAction.setSleepEnabled true, HwAction.detachInterrupt]
  let sent :=
    if env.inBinPacket then []
    else
      let payload : List ℕ := [0x00, mode]
      let skipPacket : ℕ :=
        match env.kg_evt_motion_mode with
        | some cb => cb 0x00 mode
        | none => 0
      if skipPacket = 0 then
        [{ pid := PacketId.evtMotionMode, plen := 2, payload := payload }]
      else []
  (st1, hw, sent)

/-- `setup_motion_mpu6050_hand` (lines 95-113): configures pins and the
sensor, and clears the latch flag (the write `mpuHandInterrupt = false`
happens between `digitalWrite` and `mpuHand.initialize()`). -/
def setup_motion_mpu6050_hand (st : MotionState) : MotionState × List HwAction :=
  ({ st with mpuHandInterrupt := false },
   [HwAction.pinModeInput, HwAction.digitalWriteHigh, HwAction.deviceInit,
    HwAction.delayMs 30, HwAction.setFullScaleGyroRange, HwAction.setDLPFMode,
    HwAction.setRate 9, HwAction.setInterruptMode 1, HwAction.setInterruptDrive 1,
    HwAction.setInterruptLatch 0, HwAction.setInterruptLatchClear 1,
    HwAction.setIntDataReadyEnabled 1])

/-- Low byte of an `int16_t` value: `v & 0xFF` after integral promotion
takes the low 8 bits of the two's-complement representation, which is
`v mod 256` (Lean's `%` on `ℤ` is `emod`, always nonnegative here). -/
def byteLo (v : ℤ) : ℕ := (v % 256).toNat

/-- High byte: `v >> 8` is an arithmetic shift on the promoted value,
i.e. flooring division by 256 (Lean's `/` on `ℤ` is `ediv`, which floors
for a positive divisor), and storing into `uint8_t` reduces mod 256. -/
def byteHi (v : ℤ) : ℕ := ((v / 256) % 256).toNat

/-- The 15-byte `kg_evt_motion_data` payload (lines 145-160): sensor
index 0, channel mask 0x03 (accel | gyro), byte count 0x0C, then the six
values little-endian in order ax, ay, az, gx, gy, gz. -/
def motionPayload (a g : VectorInt16) : List ℕ :=
  [0x00, 0x03, 0x0C,
   byteLo a.x, byteHi a.x, byteLo a.y, byteHi a.y, byteLo a.z, byteHi a.z,
   byteLo g.x, byteHi g.x, byteLo g.y, byteHi g.y, byteLo g.z, byteHi g.z]

/-- The three per-axis filter assignments of lines 137-139 (resp.
140-142) grouped as one vector: each component is `filterStep` of the
shadow (previous filtered) value and the raw value. -/
def filteredVec (prev raw : VectorInt16) : VectorInt16 :=
  ⟨filterStep prev.x raw.x, filterStep prev.y raw.y, filterStep prev.z raw.z⟩

/-- `update_motion_mpu6050_hand` (lines 124-164).  The burst read
`mpuHand.getMotion6(...)` is modelled by the `rawA` / `rawG` inputs,
written into `aaRaw` / `gvRaw`; then the previous filtered values are
copied into the shadow vectors, the filter is applied per axis, and the
payload is built and offered to the dispatch gate.  The callback receives
`payload[0]`, `payload[1]`, `payload[2]` (the literals 0x00, 0x03, 0x0C)
and `payload + 3` (the 12 data bytes). -/
def update_motion_mpu6050_hand (env : Env) (st : MotionState)
    (rawA rawG : VectorInt16) : MotionState × List Packet :=
  let st1 := { st with aaRaw := rawA, gvRaw := rawG }
  let st2 := { st1 with aa0 := st1.aa, gv0 := st1.gv }
  let st3 := { st2 with
    aa := filteredVec st2.aa0 st2.aaRaw,
    gv := filteredVec st2.gv0 st2.gvRaw }
  let payload := motionPayload st3.aa st3.gv
  let skipPacket : ℕ :=
    match env.kg_evt_motion_data with
    | some cb => cb 0x00 0x03 0x0C (payload.drop 3)
    | none => 0
  let sent :=
    if skipPacket = 0 then
      [{ pid := PacketId.evtMotionData, plen := 15, payload := payload }]
    else []
  (st3, sent)

/-- Modelled from the spec: the main `loop()` polling code is not part of
this header (only `update_motion_mpu6050_hand`'s doc comment refers to
it).  Spec §4.3 and §8 describe the Latch protocol: on each poll, if the
Latch is false nothing runs; if it is true, the consumer clears it and
runs exactly one read/filter/encode/dispatch sequence. -/
def main_loop_poll (env : Env) (st : MotionState) (rawA rawG : VectorInt16) :
    MotionState × List Packet :=
  if st.mpuHandInterrupt then
    update_motion_mpu6050_hand env { st with mpuHandInterrupt := false } rawA rawG
  else
    (st, [])

/-- `n` consecutive update iterations with the raw input held fixed. -/
def updateIter (env : Env) (rawA rawG : VectorInt16) (st : MotionState) :
    ℕ → MotionState
  | 0 => st
  | n + 1 => (update_motion_mpu6050_hand env (updateIter env rawA rawG st n) rawA rawG).1

/-- Little-endian signed 16-bit interpretation of a (low byte, high byte)
pair, written from the spec's words ("decoding the 12 data bytes as
little-endian signed 16-bit integers"); the independent decoder used to
state the round-trip property of claim C2. -/
def decodeInt16LE (lo hi : ℕ) : ℤ :=
  if lo + 256 * hi < 32768 then ((lo + 256 * hi : ℕ) : ℤ)
  else ((lo + 256 * hi : ℕ) : ℤ) - 65536

/-- Truncation of an integer-valued rational is the integer itself. -/
theorem trunc_intCast (n : ℤ) : trunc ((n : ℚ)) = n := by
  rw [trunc_eq_floor_or_ceil]
  by_cases h : (0 : ℚ) ≤ (n : ℚ)
  · rw [if_pos h, Int.floor_intCast]
  · rw [if_neg h, Int.ceil_intCast]

/-- The filter fixes its input: a step from `p` toward `p` stays at `p`. -/
theorem filterStep_self (p : ℤ) : filterStep p p = p := by
  unfold filterStep
  have h : (p : ℚ) + 0.25 * ((p : ℚ) - (p : ℚ)) = ((p : ℤ) : ℚ) := by ring
  rw [h, trunc_intCast]

/-- The state after one update, in closed form: raw vectors hold the
burst-read values, shadows hold the previous filtered values, filtered
vectors hold one filter step, and the latch flag is untouched. -/
theorem update_state_eq (env : Env) (st : MotionState) (rawA rawG : VectorInt16) :
    (update_motion_mpu6050_hand env st rawA rawG).1 =
      ⟨st.mpuHandInterrupt, rawA, filteredVec st.aa rawA, st.aa,
       rawG, filteredVec st.gv rawG, st.gv⟩ := rfl

/-- Decoding the two little-endian bytes produced for an in-range value
recovers the value. -/
theorem decode_encode (v : ℤ) (h : isInt16 v) :
    decodeInt16LE (byteLo v) (byteHi v) = v := by
  unfold decodeInt16LE byteLo byteHi isInt16 at *
  split <;> omega

/-- Per-axis single-step property used by claim C8: the next filtered
value lies between the previous filtered value and the raw value
(inclusive), and its distance to the raw value does not increase. -/
def axisStepOk (prev next raw : ℤ) : Prop :=
  min prev raw ≤ next ∧ next ≤ max prev raw ∧
    (next - raw).natAbs ≤ (prev - raw).natAbs

/-- One filter step satisfies `axisStepOk`. -/
theorem filterStep_axisStepOk (p r : ℤ) : axisStepOk p (filterStep p r) r := by
  have h := filterStep_between p r
  unfold axisStepOk
  rcases le_total p r with hle | hle
  · rw [min_eq_left hle] at h ⊢
    rw [max_eq_right hle] at h ⊢
    omega
  · rw [min_eq_right hle] at h ⊢
    rw [max_eq_left hle] at h ⊢
    omega

/-- C1: For every update step and every axis of both vectors, the new
filtered value equals the previous filtered value plus 0.25 times (raw
minus previous filtered value), computed in floating point (exact here,
modelled by `ℚ`) and stored back as a signed 16-bit integer (truncation
toward zero; for in-range inputs the result stays in the 16-bit range, so
the store never wraps); the acceleration and angular-rate vectors are
filtered independently with the same fixed alpha = 0.25. -/
theorem claim_C1_filter_formula (env : Env) (st : MotionState)
    (rawA rawG : VectorInt16) :
    ((update_motion_mpu6050_hand env st rawA rawG).1.aa.x =
        trunc ((st.aa.x : ℚ) + 0.25 * ((rawA.x : ℚ) - (st.aa.x : ℚ))) ∧
     (update_motion_mpu6050_hand env st rawA rawG).1.aa.y =
        trunc ((st.aa.y : ℚ) + 0.25 * ((rawA.y : ℚ) - (st.aa.y : ℚ))) ∧
     (update_motion_mpu6050_hand env st rawA rawG).1.aa.z =
        trunc ((st.aa.z : ℚ) + 0.25 * ((rawA.z : ℚ) - (st.aa.z : ℚ))) ∧
     (update_motion_mpu6050_hand env st rawA rawG).1.gv.x =
        trunc ((st.gv.x : ℚ) + 0.25 * ((rawG.x : ℚ) - (st.gv.x : ℚ))) ∧
     (update_motion_mpu6050_hand env st rawA rawG).1.gv.y =
        trunc ((st.gv.y : ℚ) + 0.25 * ((rawG.y : ℚ) - (st.gv.y : ℚ))) ∧
     (update_motion_mpu6050_hand env st rawA rawG).1.gv.z =
        trunc ((st.gv.z : ℚ) + 0.25 * ((rawG.z : ℚ) - (st.gv.z : ℚ)))) ∧
    (vecIsInt16 st.aa → vecIsInt16 rawA →
      vecIsInt16 (update_motion_mpu6050_hand env st rawA rawG).1.aa) ∧
    (vecIsInt16 st.gv → vecIsInt16 rawG →
      vecIsInt16 (update_motion_mpu6050_hand env st rawA rawG).1.gv) := by
  refine ⟨⟨rfl, rfl, rfl, rfl, rfl, rfl⟩, ?_, ?_⟩
  · intro ha hr
    exact ⟨filterStep_isInt16 _ _ ha.1 hr.1, filterStep_isInt16 _ _ ha.2.1 hr.2.1,
           filterStep_isInt16 _ _ ha.2.2 hr.2.2⟩
  · intro hg hr
    exact ⟨filterStep_isInt16 _ _ hg.1 hr.1, filterStep_isInt16 _ _ hg.2.1 hr.2.1,
           filterStep_isInt16 _ _ hg.2.2 hr.2.2⟩

/-- Witness for C1 at a concrete state and raw reading: the range
hypotheses hold and the filtered result stays in the 16-bit range. -/
theorem claim_C1_filter_formula_witness :
    vecIsInt16 (⟨0, 0, 0⟩ : VectorInt16) ∧ vecIsInt16 (⟨1000, 0, 0⟩ : VectorInt16) ∧
    vecIsInt16 ((update_motion_mpu6050_hand ⟨false, none, none⟩
      ⟨false, ⟨0, 0, 0⟩, ⟨0, 0, 0⟩, ⟨0, 0, 0⟩, ⟨0, 0, 0⟩, ⟨0, 0, 0⟩, ⟨0, 0, 0⟩⟩
      ⟨1000, 0, 0⟩ ⟨0, 0, 0⟩).1.aa) :=
  ⟨by decide, by decide,
   (claim_C1_filter_formula ⟨false, none, none⟩
      ⟨false, ⟨0, 0, 0⟩, ⟨0, 0, 0⟩, ⟨0, 0, 0⟩, ⟨0, 0, 0⟩, ⟨0, 0, 0⟩, ⟨0, 0, 0⟩⟩
      ⟨1000, 0, 0⟩ ⟨0, 0, 0⟩).2.1 (by decide) (by decide)⟩

/-- C2: For every pair of in-range filtered vectors, the motion-data
payload is exactly 15 bytes: byte 0 = 0x00 (sensor index), byte 1 = 0x03
(channel mask), byte 2 = 0x0C (byte count), then the six 16-bit values in
order ax, ay, az, gx, gy, gz, each little-endian; decoding each pair of
data bytes as a little-endian signed 16-bit integer recovers the value. -/
theorem claim_C2_payload (a g : VectorInt16) (ha : vecIsInt16 a)
    (hg : vecIsInt16 g) :
    motionPayload a g =
      [0x00, 0x03, 0x0C,
       byteLo a.x, byteHi a.x, byteLo a.y, byteHi a.y, byteLo a.z, byteHi a.z,
       byteLo g.x, byteHi g.x, byteLo g.y, byteHi g.y, byteLo g.z, byteHi g.z] ∧
    (motionPayload a g).length = 15 ∧
    decodeInt16LE (byteLo a.x) (byteHi a.x) = a.x ∧
    decodeInt16LE (byteLo a.y) (byteHi a.y) = a.y ∧
    decodeInt16LE (byteLo a.z) (byteHi a.z) = a.z ∧
    decodeInt16LE (byteLo g.x) (byteHi g.x) = g.x ∧
    decodeInt16LE (byteLo g.y) (byteHi g.y) = g.y ∧
    decodeInt16LE (byteLo g.z) (byteHi g.z) = g.z :=
  ⟨rfl, rfl, decode_encode _ ha.1, decode_encode _ ha.2.1, decode_encode _ ha.2.2,
   decode_encode _ hg.1, decode_encode _ hg.2.1, decode_encode _ hg.2.2⟩

/-- Witness for C2 at the spec's example `aa = (1, -1, 300)`,
`gv = (-300, 0, 32767)`: the round trip recovers the negative and the
extremal component. -/
theorem claim_C2_payload_witness :
    vecIsInt16 (⟨1, -1, 300⟩ : VectorInt16) ∧
    vecIsInt16 (⟨-300, 0, 32767⟩ : VectorInt16) ∧
    decodeInt16LE (byteLo (-1 : ℤ)) (byteHi (-1 : ℤ)) = -1 ∧
    decodeInt16LE (byteLo (32767 : ℤ)) (byteHi (32767 : ℤ)) = 32767 :=
  ⟨by decide, by decide,
   (claim_C2_payload ⟨1, -1, 300⟩ ⟨-300, 0, 32767⟩ (by decide) (by decide)).2.2.2.1,
   (claim_C2_payload ⟨1, -1, 300⟩ ⟨-300, 0, 32767⟩ (by decide) (by decide)).2.2.2.2.2.2.2⟩

/-- C3: On every poll of the main loop: if the Latch is false, no
read/filter/encode/dispatch sequence executes (state and packet output
are unchanged); if it is true, exactly one update sequence executes and
the Latch is false immediately after it. -/
theorem claim_C3_latch (env : Env) (st : MotionState) (rawA rawG : VectorInt16) :
    (st.mpuHandInterrupt = false → main_loop_poll env st rawA rawG = (st, [])) ∧
    (st.mpuHandInterrupt = true →
      main_loop_poll env st rawA rawG =
        update_motion_mpu6050_hand env { st with mpuHandInterrupt := false } rawA rawG ∧
      (main_loop_poll env st rawA rawG).1.mpuHandInterrupt = false) := by
  constructor
  · intro h
    simp [main_loop_poll, h]
  · intro h
    refine ⟨by simp [main_loop_poll, h], ?_⟩
    simp [main_loop_poll, h, update_state_eq]

/-- Witness for C3 with the Latch set: one update runs and the Latch is
clear afterwards. -/
theorem claim_C3_latch_witness :
    main_loop_poll ⟨false, none, none⟩
      ⟨true, ⟨0, 0, 0⟩, ⟨0, 0, 0⟩, ⟨0, 0, 0⟩, ⟨0, 0, 0⟩, ⟨0, 0, 0⟩, ⟨0, 0, 0⟩⟩
      ⟨5, 5, 5⟩ ⟨6, 6, 6⟩ =
      update_motion_mpu6050_hand ⟨false, none, none⟩
        ⟨false, ⟨0, 0, 0⟩, ⟨0, 0, 0⟩, ⟨0, 0, 0⟩, ⟨0, 0, 0⟩, ⟨0, 0, 0⟩, ⟨0, 0, 0⟩⟩
        ⟨5, 5, 5⟩ ⟨6, 6, 6⟩ ∧
    (main_loop_poll ⟨false, none, none⟩
      ⟨true, ⟨0, 0, 0⟩, ⟨0, 0, 0⟩, ⟨0, 0, 0⟩, ⟨0, 0, 0⟩, ⟨0, 0, 0⟩, ⟨0, 0, 0⟩⟩
      ⟨5, 5, 5⟩ ⟨6, 6, 6⟩).1.mpuHandInterrupt = false :=
  (claim_C3_latch ⟨false, none, none⟩
    ⟨true, ⟨0, 0, 0⟩, ⟨0, 0, 0⟩, ⟨0, 0, 0⟩, ⟨0, 0, 0⟩, ⟨0, 0, 0⟩, ⟨0, 0, 0⟩⟩
    ⟨5, 5, 5⟩ ⟨6, 6, 6⟩).2 rfl

/-- C4: For every prior filtered state, enabling (any nonzero mode) zeroes
both filtered vectors and forces the Latch true; a subsequent filter step
with raw input (0,0,0) therefore yields (0,0,0). -/
theorem claim_C4_enable_reset (env env2 : Env) (st : MotionState) (mode : ℕ)
    (h : mode ≠ 0) :
    (motion_set_mpu6050_hand_mode env st mode).1.aa = ⟨0, 0, 0⟩ ∧
    (motion_set_mpu6050_hand_mode env st mode).1.gv = ⟨0, 0, 0⟩ ∧
    (motion_set_mpu6050_hand_mode env st mode).1.mpuHandInterrupt = true ∧
    (update_motion_mpu6050_hand env2 (motion_set_mpu6050_hand_mode env st mode).1
        ⟨0, 0, 0⟩ ⟨0, 0, 0⟩).1.aa = ⟨0, 0, 0⟩ ∧
    (update_motion_mpu6050_hand env2 (motion_set_mpu6050_hand_mode env st mode).1
        ⟨0, 0, 0⟩ ⟨0, 0, 0⟩).1.gv = ⟨0, 0, 0⟩ := by
  have hst : (motion_set_mpu6050_hand_mode env st mode).1 =
      { st with aa := ⟨0, 0, 0⟩, gv := ⟨0, 0, 0⟩, mpuHandInterrupt := true } := by
    simp [motion_set_mpu6050_hand_mode, h]
  refine ⟨by rw [hst], by rw [hst], by rw [hst], ?_, ?_⟩
  · rw [hst, update_state_eq]
    simp [filteredVec, filterStep_self]
  · rw [hst, update_state_eq]
    simp [filteredVec, filterStep_self]

/-- Witness for C4: prior filtered state (100,100,100), enable, one
filter step with raw (0,0,0) gives (0,0,0), not (75,75,75). -/
theorem claim_C4_enable_reset_witness :
    (1 : ℕ) ≠ 0 ∧
    (update_motion_mpu6050_hand ⟨false, none, none⟩
        (motion_set_mpu6050_hand_mode ⟨false, none, none⟩
          ⟨false, ⟨0, 0, 0⟩, ⟨100, 100, 100⟩, ⟨0, 0, 0⟩, ⟨0, 0, 0⟩,
           ⟨100, 100, 100⟩, ⟨0, 0, 0⟩⟩ 1).1
        ⟨0, 0, 0⟩ ⟨0, 0, 0⟩).1.aa = ⟨0, 0, 0⟩ :=
  ⟨by decide,
   (claim_C4_enable_reset ⟨false, none, none⟩ ⟨false, none, none⟩
     ⟨false, ⟨0, 0, 0⟩, ⟨100, 100, 100⟩, ⟨0, 0, 0⟩, ⟨0, 0, 0⟩,
      ⟨100, 100, 100⟩, ⟨0, 0, 0⟩⟩ 1 (by decide)).2.2.2.1⟩

/-- C5: In every call to the update operation, after the call the shadow
vectors hold exactly the filtered state from before the call (the
previous filtered values are copied before any new filtered value is
computed), never the current raw reading. -/
theorem claim_C5_shadow (env : Env) (st : MotionState) (rawA rawG : VectorInt16) :
    (update_motion_mpu6050_hand env st rawA rawG).1.aa0 = st.aa ∧
    (update_motion_mpu6050_hand env st rawA rawG).1.gv0 = st.gv :=
  ⟨rfl, rfl⟩

/-- C6: For both event kinds, when the dispatch gate is reached: a
registered callback returning a nonzero (truthy) skip value suppresses
the packet; an absent callback, or one returning zero, lets exactly one
packet through to the transport.  (For the mode-change event the gate is
reached when `inBinPacket` is false.) -/
theorem claim_C6_dispatch_gate (env : Env) (st : MotionState)
    (rawA rawG : VectorInt16) (mode : ℕ) :
    (env.kg_evt_motion_data = none →
      (update_motion_mpu6050_hand env st rawA rawG).2 =
        [⟨PacketId.evtMotionData, 15,
          motionPayload (filteredVec st.aa rawA) (filteredVec st.gv rawG)⟩]) ∧
    (∀ cb, env.kg_evt_motion_data = some cb →
      (cb 0x00 0x03 0x0C
          ((motionPayload (filteredVec st.aa rawA) (filteredVec st.gv rawG)).drop 3) ≠ 0 →
        (update_motion_mpu6050_hand env st rawA rawG).2 = []) ∧
      (cb 0x00 0x03 0x0C
          ((motionPayload (filteredVec st.aa rawA) (filteredVec st.gv rawG)).drop 3) = 0 →
        (update_motion_mpu6050_hand env st rawA rawG).2 =
          [⟨PacketId.evtMotionData, 15,
            motionPayload (filteredVec st.aa rawA) (filteredVec st.gv rawG)⟩])) ∧
    (env.inBinPacket = false →
      (env.kg_evt_motion_mode = none →
        (motion_set_mpu6050_hand_mode env st mode).2.2 =
          [⟨PacketId.evtMotionMode, 2, [0x00, mode]⟩]) ∧
      (∀ cb, env.kg_evt_motion_mode = some cb →
        (cb 0x00 mode ≠ 0 → (motion_set_mpu6050_hand_mode env st mode).2.2 = []) ∧
        (cb 0x00 mode = 0 →
          (motion_set_mpu6050_hand_mode env st mode).2.2 =
            [⟨PacketId.evtMotionMode, 2, [0x00, mode]⟩]))) := by
  refine ⟨?_, ?_, ?_⟩
  · intro h
    simp [update_motion_mpu6050_hand, h]
  · intro cb hcb
    constructor
    · intro hnz
      simp [update_motion_mpu6050_hand, hcb, hnz]
    · intro hz
      simp [update_motion_mpu6050_hand, hcb, hz]
  · intro hbin
    constructor
    · intro h
      simp [motion_set_mpu6050_hand_mode, hbin, h]
    · intro cb hcb
      constructor
      · intro hnz
        simp [motion_set_mpu6050_hand_mode, hbin, hcb, hnz]
      · intro hz
        simp [motion_set_mpu6050_hand_mode, hbin, hcb, hz]

/-- Witness for C6: callbacks that return 1 (skip) suppress both the
motion-data packet and the mode-change packet. -/
theorem claim_C6_dispatch_gate_witness :
    (update_motion_mpu6050_hand ⟨false, some (fun _ _ => 1), some (fun _ _ _ _ => 1)⟩
      ⟨false, ⟨0, 0, 0⟩, ⟨0, 0, 0⟩, ⟨0, 0, 0⟩, ⟨0, 0, 0⟩, ⟨0, 0, 0⟩, ⟨0, 0, 0⟩⟩
      ⟨4, 4, 4⟩ ⟨8, 8, 8⟩).2 = [] ∧
    (motion_set_mpu6050_hand_mode ⟨false, some (fun _ _ => 1), some (fun _ _ _ _ => 1)⟩
      ⟨false, ⟨0, 0, 0⟩, ⟨0, 0, 0⟩, ⟨0, 0, 0⟩, ⟨0, 0, 0⟩, ⟨0, 0, 0⟩, ⟨0, 0, 0⟩⟩ 7).2.2 = [] :=
  ⟨((claim_C6_dispatch_gate ⟨false, some (fun _ _ => 1), some (fun _ _ _ _ => 1)⟩
      ⟨false, ⟨0, 0, 0⟩, ⟨0, 0, 0⟩, ⟨0, 0, 0⟩, ⟨0, 0, 0⟩, ⟨0, 0, 0⟩, ⟨0, 0, 0⟩⟩
      ⟨4, 4, 4⟩ ⟨8, 8, 8⟩ 7).2.1 (fun _ _ _ _ => 1) rfl).1 (by decide),
   (((claim_C6_dispatch_gate ⟨false, some (fun _ _ => 1), some (fun _ _ _ _ => 1)⟩
      ⟨false, ⟨0, 0, 0⟩, ⟨0, 0, 0⟩, ⟨0, 0, 0⟩, ⟨0, 0, 0⟩, ⟨0, 0, 0⟩, ⟨0, 0, 0⟩⟩
      ⟨4, 4, 4⟩ ⟨8, 8, 8⟩ 7).2.2 rfl).2 (fun _ _ => 1) rfl).1 (by decide)⟩

/-- C7: On every mode change, the state change and the hardware effect
trace are the same whether or not the change replays a received binary
command (`inBinPacket`); when it does, no mode-change event is emitted at
all; when it does not, the event with payload [0, mode] is offered to the
dispatch gate (sent when the callback is absent; gated by its return
value when present). -/
theorem claim_C7_mode_event (st : MotionState) (mode : ℕ)
    (cbm : Option (ℕ → ℕ → ℕ)) (cbd : Option (ℕ → ℕ → ℕ → List ℕ → ℕ)) :
    (motion_set_mpu6050_hand_mode ⟨true, cbm, cbd⟩ st mode).1 =
      (motion_set_mpu6050_hand_mode ⟨false, cbm, cbd⟩ st mode).1 ∧
    (motion_set_mpu6050_hand_mode ⟨true, cbm, cbd⟩ st mode).2.1 =
      (motion_set_mpu6050_hand_mode ⟨false, cbm, cbd⟩ st mode).2.1 ∧
    (motion_set_mpu6050_hand_mode ⟨true, cbm, cbd⟩ st mode).2.2 = [] ∧
    (cbm = none →
      (motion_set_mpu6050_hand_mode ⟨false, cbm, cbd⟩ st mode).2.2 =
        [⟨PacketId.evtMotionMode, 2, [0x00, mode]⟩]) ∧
    (∀ f, cbm = some f →
      (motion_set_mpu6050_hand_mode ⟨false, cbm, cbd⟩ st mode).2.2 =
        (if f 0x00 mode = 0 then [⟨PacketId.evtMotionMode, 2, [0x00, mode]⟩]
         else [])) := by
  refine ⟨rfl, rfl, by simp [motion_set_mpu6050_hand_mode], ?_, ?_⟩
  · intro h
    simp [motion_set_mpu6050_hand_mode, h]
  · intro f h
    simp [motion_set_mpu6050_hand_mode, h]

/-- Witness for C7: with no callback registered and no binary command
being replayed, the mode-change event [0, 1] is sent. -/
theorem claim_C7_mode_event_witness :
    (motion_set_mpu6050_hand_mode ⟨false, none, none⟩
      ⟨false, ⟨0, 0, 0⟩, ⟨0, 0, 0⟩, ⟨0, 0, 0⟩, ⟨0, 0, 0⟩, ⟨0, 0, 0⟩, ⟨0, 0, 0⟩⟩ 1).2.2 =
      [⟨PacketId.evtMotionMode, 2, [0x00, 1]⟩] :=
  (claim_C7_mode_event
    ⟨false, ⟨0, 0, 0⟩, ⟨0, 0, 0⟩, ⟨0, 0, 0⟩, ⟨0, 0, 0⟩, ⟨0, 0, 0⟩, ⟨0, 0, 0⟩⟩
    1 none none).2.2.2.1 rfl

/-- C8: With the raw input held fixed across consecutive update
iterations, every axis of both vectors steps from its previous filtered
value to a value between that previous value and the raw value
(inclusive), with its distance to the raw value never increasing:
monotone convergence toward the raw value with no overshoot. -/
theorem claim_C8_monotone (env : Env) (rawA rawG : VectorInt16)
    (st : MotionState) (n : ℕ) :
    axisStepOk (updateIter env rawA rawG st n).aa.x
      (updateIter env rawA rawG st (n + 1)).aa.x rawA.x ∧
    axisStepOk (updateIter env rawA rawG st n).aa.y
      (updateIter env rawA rawG st (n + 1)).aa.y rawA.y ∧
    axisStepOk (updateIter env rawA rawG st n).aa.z
      (updateIter env rawA rawG st (n + 1)).aa.z rawA.z ∧
    axisStepOk (updateIter env rawA rawG st n).gv.x
      (updateIter env rawA rawG st (n + 1)).gv.x rawG.x ∧
    axisStepOk (updateIter env rawA rawG st n).gv.y
      (updateIter env rawA rawG st (n + 1)).gv.y rawG.y ∧
    axisStepOk (updateIter env rawA rawG st n).gv.z
      (updateIter env rawA rawG st (n + 1)).gv.z rawG.z :=
  ⟨filterStep_axisStepOk _ _, filterStep_axisStepOk _ _, filterStep_axisStepOk _ _,
   filterStep_axisStepOk _ _, filterStep_axisStepOk _ _, filterStep_axisStepOk _ _⟩

/-- C9: The update operation never writes the Latch flag and the
Enabled→Disabled transition leaves it unchanged; the writers are the ISR
(sets true), enabling (sets true), and setup (sets false).  Clearing the
Latch after a processed sample is the caller's responsibility. -/
theorem claim_C9_latch_frame (env : Env) (st : MotionState)
    (rawA rawG : VectorInt16) (mode : ℕ) :
    (update_motion_mpu6050_hand env st rawA rawG).1.mpuHandInterrupt =
      st.mpuHandInterrupt ∧
    (motion_set_mpu6050_hand_mode env st 0).1.mpuHandInterrupt =
      st.mpuHandInterrupt ∧
    (motion_mpu6050_hand_interrupt st).mpuHandInterrupt = true ∧
    (setup_motion_mpu6050_hand st).1.mpuHandInterrupt = false ∧
    (mode ≠ 0 →
      (motion_set_mpu6050_hand_mode env st mode).1.mpuHandInterrupt = true) := by
  refine ⟨rfl, rfl, rfl, rfl, ?_⟩
  intro h
  simp [motion_set_mpu6050_hand_mode, h]

/-- Witness for C9: enabling with mode 1 sets the Latch. -/
theorem claim_C9_latch_frame_witness :
    (motion_set_mpu6050_hand_mode ⟨true, none, none⟩
      ⟨false, ⟨0, 0, 0⟩, ⟨0, 0, 0⟩, ⟨0, 0, 0⟩, ⟨0, 0, 0⟩, ⟨0, 0, 0⟩, ⟨0, 0, 0⟩⟩
      1).1.mpuHandInterrupt = true :=
  (claim_C9_latch_frame ⟨true, none, none⟩
    ⟨false, ⟨0, 0, 0⟩, ⟨0, 0, 0⟩, ⟨0, 0, 0⟩, ⟨0, 0, 0⟩, ⟨0, 0, 0⟩, ⟨0, 0, 0⟩⟩
    ⟨0, 0, 0⟩ ⟨0, 0, 0⟩ 1).2.2.2.2 (by decide)

/-- C10: For every `uint8_t` mode argument, any nonzero value is treated
as Enabled (zeroing the filtered vectors, forcing the Latch, attaching
the interrupt, waking the sensor) and only 0 as Disabled (sleep then
detach, state untouched); the mode-change event payload echoes the raw
mode byte verbatim. -/
theorem claim_C10_mode_byte (env : Env) (st : MotionState) (mode : ℕ)
    (_h256 : mode < 256) :
    (mode ≠ 0 →
      (motion_set_mpu6050_hand_mode env st mode).1 =
        { st with aa := ⟨0, 0, 0⟩, gv := ⟨0, 0, 0⟩, mpuHandInterrupt := true } ∧
      (motion_set_mpu6050_hand_mode env st mode).2.1 =
        [HwAction.attachInterrupt, HwAction.setSleepEnabled false]) ∧
    (mode = 0 →
      (motion_set_mpu6050_hand_mode env st mode).1 = st ∧
      (motion_set_mpu6050_hand_mode env st mode).2.1 =
        [HwAction.setSleepEnabled true, HwAction.detachInterrupt]) ∧
    (env.inBinPacket = false → env.kg_evt_motion_mode = none →
      (motion_set_mpu6050_hand_mode env st mode).2.2 =
        [⟨PacketId.evtMotionMode, 2, [0x00, mode]⟩]) := by
  refine ⟨?_, ?_, ?_⟩
  · intro h
    constructor <;> simp [motion_set_mpu6050_hand_mode, h]
  · intro h
    constructor <;> simp [motion_set_mpu6050_hand_mode, h]
  · intro hbin hcb
    simp [motion_set_mpu6050_hand_mode, hbin, hcb]

/-- Witness for C10 at mode 173: nonzero but not 1, it still enables, and
the event payload carries 173 verbatim. -/
theorem claim_C10_mode_byte_witness :
    (motion_set_mpu6050_hand_mode ⟨false, none, none⟩
      ⟨false, ⟨0, 0, 0⟩, ⟨0, 0, 0⟩, ⟨0, 0, 0⟩, ⟨0, 0, 0⟩, ⟨0, 0, 0⟩, ⟨0, 0, 0⟩⟩
      173).2.1 = [HwAction.attachInterrupt, HwAction.setSleepEnabled false] ∧
    (motion_set_mpu6050_hand_mode ⟨false, none, none⟩
      ⟨false, ⟨0, 0, 0⟩, ⟨0, 0, 0⟩, ⟨0, 0, 0⟩, ⟨0, 0, 0⟩, ⟨0, 0, 0⟩, ⟨0, 0, 0⟩⟩
      173).2.2 = [⟨PacketId.evtMotionMode, 2, [0x00, 173]⟩] :=
  ⟨((claim_C10_mode_byte ⟨false, none, none⟩
      ⟨false, ⟨0, 0, 0⟩, ⟨0, 0, 0⟩, ⟨0, 0, 0⟩, ⟨0, 0, 0⟩, ⟨0, 0, 0⟩, ⟨0, 0, 0⟩⟩
      173 (by decide)).1 (by decide)).2,
   (claim_C10_mode_byte ⟨false, none, none⟩
      ⟨false, ⟨0, 0, 0⟩, ⟨0, 0, 0⟩, ⟨0, 0, 0⟩, ⟨0, 0, 0⟩, ⟨0, 0, 0⟩, ⟨0, 0, 0⟩⟩
      173 (by decide)).2.2 rfl rfl⟩
